import Mathlib

/-!
# Verification of the quiz application (`streamlit_app.py`)

Shallow embedding of the data model of the quiz application and operations:
the question store (`add_question`, the `questions` table with its
check constraint restricting correct_option to A, B, C, D), the bulk JSON
importer (`parse_json_questions` and the bulk insert loop of
`admin_add_questions`), the single-entry admin form, the quiz session
controller (`take_quiz` render cycle: timer, navigation buttons), and the
scoring / review engine (`submit_quiz`, `review_answers`).

Machine conventions:
* Timestamps are natural numbers counting seconds; `time_limit` is stored
  in minutes (the code stores `15` and converts via `timedelta(minutes=...)`),
  so the expiry test `remaining_time <= timedelta(0)` becomes
  `time_limit * 60 ≤ now - start_time`.
* The `answers` dict of the visitor is a function `Nat → Option String`
  (`dict.get` with a default maps to `Option.getD`).
* Python exceptions caught inside a function body are modelled by
  `Option`-valued results where the fault can actually occur
  (the dynamic `getattr` lookup), and by the `Bool` success flag that
  `add_question` itself returns.
-/

namespace QuizApp

/-- The four letters admitted by the check constraint
restricting `correct_option` to A, B, C, D on the `questions` table. -/
def letters : List String := ["A", "B", "C", "D"]

/-- A row of the `questions` table (class `Question` in the source).
`explanation` is the only nullable column. -/
structure Question where
  id : Nat
  question_text : String
  option_a : String
  option_b : String
  option_c : String
  option_d : String
  correct_option : String
  explanation : Option String
  deriving Repr, DecidableEq

/-- A raw question record as decoded from JSON (a Python dict): each of the
seven expected keys may be present or absent. -/
structure QRecord where
  question_text : Option String
  option_a : Option String
  option_b : Option String
  option_c : Option String
  option_d : Option String
  correct_option : Option String
  explanation : Option String
  deriving Repr, DecidableEq

/-- The persistent question store: the rows of the `questions` table plus the
auto-increment counter for the primary key. -/
structure Store where
  rows : List Question
  next_id : Nat
  deriving Repr, DecidableEq

/-- Function `add_question(session, question_data)`: builds a `Question` row and
commits it.  The commit succeeds only when every `nullable=False` column is
present and the check constraint (correct_option among A, B, C, D)
holds; any failure is caught, the transaction rolled back, and `False`
returned (source lines 120–140 together with the schema, lines 64–76). -/
def add_question (s : Store) (r : QRecord) : Bool × Store :=
  match r.question_text, r.option_a, r.option_b, r.option_c, r.option_d, r.correct_option with
  | some qt, some oa, some ob, some oc, some od, some co =>
    if co ∈ letters then
      (true,
        { rows := s.rows ++ [⟨s.next_id, qt, oa, ob, oc, od, co, r.explanation⟩],
          next_id := s.next_id + 1 })
    else (false, s)
  | _, _, _, _, _, _ => (false, s)

/-- The result of the Python `json.loads` call on the uploaded payload, abstracted
to what `parse_json_questions` inspects: either a decode error (`none` at
the outer level), a top-level list of records, or any non-list value. -/
inductive JsonValue where
  | arr (records : List QRecord)
  | nonList
  deriving Repr, DecidableEq

/-- Function `parse_json_questions(json_data)` (source lines 142–163).  Input is the
outcome of `json.loads` (`none` = `JSONDecodeError`).  Returns the parsed
record list together with the user-visible `st.error` message, if any:
a decode error shows "Invalid JSON format."; a non-list payload only logs
and returns the empty list with no user-visible message. -/
def parse_json_questions : Option JsonValue → List QRecord × Option String
  | some (.arr records) => (records, none)
  | some .nonList => ([], none)
  | none => ([], some "Invalid JSON format.")

/-- Key-presence test (`field in q`) for each of the seven required keys of the bulk-import
validation (source line 365–366). -/
def has_required_fields (r : QRecord) : Bool :=
  r.question_text.isSome && r.option_a.isSome && r.option_b.isSome &&
    r.option_c.isSome && r.option_d.isSome && r.correct_option.isSome &&
    r.explanation.isSome

/-- The per-record loop of the bulk path in `admin_add_questions`
(source lines 362–371): records with all seven required fields are passed to
`add_question` (counting successes); records missing a field are logged and
skipped.  Returns the final store, the success count, and the number of
insert attempts made. -/
def bulk_insert_loop (s : Store) : List QRecord → Store × Nat × Nat
  | [] => (s, 0, 0)
  | q :: rest =>
    if has_required_fields q then
      let (ok, s') := add_question s q
      let (s'', succ, att) := bulk_insert_loop s' rest
      (s'', (if ok then 1 else 0) + succ, 1 + att)
    else
      bulk_insert_loop s rest

/-- Outcome of one run of the bulk path of `admin_add_questions`:
the resulting store, how many `add_question` calls were attempted, how many
succeeded, the success banner shown by `st.success` (if any), and the
`st.error` message shown by the parse step (if any). -/
structure BulkOutcome where
  store : Store
  attempts : Nat
  success_count : Nat
  success_msg : Option String
  parse_error_msg : Option String
  deriving Repr, DecidableEq

/-- The bulk path of `admin_add_questions` (source lines 355–372): parse the
payload, and only when the parsed list is non-empty (Python truthiness of
`if questions:`) run the insert loop and report
`f"Successfully added {success_count} questions."`. -/
def admin_bulk (s : Store) (payload : Option JsonValue) : BulkOutcome :=
  let (questions, perr) := parse_json_questions payload
  if questions.isEmpty then
    ⟨s, 0, 0, none, perr⟩
  else
    let (s', succ, att) := bulk_insert_loop s questions
    ⟨s', att, succ, some ("Successfully added " ++ toString succ ++ " questions."), perr⟩

/-- The single-entry path of `admin_add_questions` (source lines 318–353):
the form always supplies all seven values (the selectbox for
`correct_option` always yields one of A–D, but the guard only tests
truthiness).  `all([question_text, option_a, option_b, option_c, option_d,
correct_option])` is Python truthiness: all six strings non-empty.  Returns
the resulting store, the message shown to the admin, and the number of
insert attempts made. -/
def single_entry_submit (s : Store)
    (question_text option_a option_b option_c option_d correct_option explanation : String) :
    Store × String × Nat :=
  if question_text ≠ "" ∧ option_a ≠ "" ∧ option_b ≠ "" ∧ option_c ≠ ""
      ∧ option_d ≠ "" ∧ correct_option ≠ "" then
    let (ok, s') := add_question s
      ⟨some question_text, some option_a, some option_b, some option_c,
        some option_d, some correct_option, some explanation⟩
    (s', if ok then "Question added successfully!"
      else "Failed to add question. Check logs for details.", 1)
  else
    (s, "Please fill in all fields.", 0)

/-- A navigation interaction during one render of `take_quiz`: which button
(if any) the visitor pressed.  Streamlit delivers at most one button click
per rerun. -/
inductive Action where
  | previous
  | saveForLater
  | next
  | submit
  | idle
  deriving Repr, DecidableEq

/-- The transient per-visitor quiz session state (`st.session_state`):
`current_question` index, the `answers` dict (question id ↦ selected
letter), `start_time` (seconds), and `time_limit` (minutes, the code stores
15). -/
structure QuizState where
  current_question : Nat
  answers : Nat → Option String
  start_time : Nat
  time_limit : Nat

/-- Outcome of one render of `take_quiz`: the updated session state, whether
`submit_quiz` was invoked on this render, and whether the "no questions
available" warning short-circuited the render. -/
structure RenderResult where
  state : QuizState
  submitted : Bool
  no_questions_warning : Bool

/-- The timer test of `take_quiz` (source lines 206–209):
`remaining_time <= timedelta(0)` with
`remaining_time = timedelta(minutes=time_limit) - (now - start_time)`,
i.e. `time_limit * 60 ≤ now - start_time` in seconds. -/
def time_up (st : QuizState) (now : Nat) : Bool :=
  st.time_limit * 60 ≤ now - st.start_time

/-- One render cycle of `take_quiz` (source lines 185–252), after session
state has been initialized.  In order: the empty-question-set short circuit;
the timer test, which forces `current_question = len(questions)` and submits
before any button is handled; the in-progress branch, which records the
radio selection and then handles exactly one button (Previous decrements
only when the index is positive, Next increments only below
`len(questions) - 1`, Submit scores only at the last question, Save for
Later changes nothing); and the completed branch (index at or past the end),
which submits. -/
def take_quiz_render (questions : List Question) (st : QuizState) (now : Nat)
    (selected : Option String) (act : Action) : RenderResult :=
  if questions.isEmpty then ⟨st, false, true⟩
  else if time_up st now then
    ⟨{ st with current_question := questions.length }, true, false⟩
  else if h : st.current_question < questions.length then
    let q := questions.get ⟨st.current_question, h⟩
    let st1 :=
      match selected with
      | some sel => { st with answers := fun i => if i = q.id then some sel else st.answers i }
      | none => st
    match act with
    | .previous =>
        if 0 < st1.current_question then
          ⟨{ st1 with current_question := st1.current_question - 1 }, false, false⟩
        else ⟨st1, false, false⟩
    | .saveForLater => ⟨st1, false, false⟩
    | .next =>
        if st1.current_question < questions.length - 1 then
          ⟨{ st1 with current_question := st1.current_question + 1 }, false, false⟩
        else ⟨st1, false, false⟩
    | .submit =>
        if st1.current_question = questions.length - 1 then ⟨st1, true, false⟩
        else ⟨st1, false, false⟩
    | .idle => ⟨st1, false, false⟩
  else ⟨st, true, false⟩

/-- Python `str.lower()` restricted to what the call sites feed it
(single ASCII letters). -/
def lowerStr (s : String) : String :=
  ⟨s.data.map Char.toLower⟩

/-- The dynamic attribute lookup `getattr(question, name)` as used by
`submit_quiz` and `review_answers`, where `name` is always built as
the concatenation of option_ and the lowercased letter: it resolves for the four option columns and
faults (`AttributeError`, modelled as `none`) for any other name. -/
def getattr_option (q : Question) (name : String) : Option String :=
  if name = "option_a" then some q.option_a
  else if name = "option_b" then some q.option_b
  else if name = "option_c" then some q.option_c
  else if name = "option_d" then some q.option_d
  else none

/-- One row of the results table built by `submit_quiz` (source lines
274–280). -/
structure ResultRecord where
  question : String
  your_answer : String
  correct_answer : String
  explanation : Option String
  result : String
  deriving Repr, DecidableEq

/-- Function `submit_quiz(session, questions)` (source lines 258–287): one pass over
the questions, looking each recorded answer up with
`answers.get(question.id, "No Answer")`, counting the ones equal to
`correct_option`, and building a result row whose option texts come from the
dynamic `getattr` lookup.  A faulting lookup (an uncaught `AttributeError`)
is `none`; otherwise the final score and the result rows are returned. -/
def submit_quiz : List Question → (Nat → Option String) → Option (Nat × List ResultRecord)
  | [], _ => some (0, [])
  | q :: rest, answers =>
    let user_answer := (answers q.id).getD "No Answer"
    let correct := user_answer == q.correct_option
    let your_answer :=
      if user_answer == "No Answer" then some "No Answer"
      else (getattr_option q ("option_" ++ lowerStr user_answer)).map
        (fun t => user_answer ++ ": " ++ t)
    match your_answer, getattr_option q ("option_" ++ lowerStr q.correct_option),
        submit_quiz rest answers with
    | some ya, some ct, some (score, results) =>
        some ((if correct then 1 else 0) + score,
          ⟨q.question_text, ya, q.correct_option ++ ": " ++ ct, q.explanation,
            if correct then "Correct" else "Incorrect"⟩ :: results)
    | _, _, _ => none

/-- The lines one question contributes to the review view built by `review_answers`
(source lines 298–305); the surrounding markdown emphasis markers are
elided. -/
structure ReviewLine where
  your_answer : String
  correct_answer : String
  explanation : Option String
  result : String
  deriving Repr, DecidableEq

/-- Function `review_answers(session, questions)` (source lines 289–306): iterates
every question, displaying the recorded answer (same `"No Answer"` sentinel
and dynamic `getattr` lookup as `submit_quiz`), the correct answer, the
explanation and the correctness verdict.  A faulting lookup is `none`. -/
def review_answers : List Question → (Nat → Option String) → Option (List ReviewLine)
  | [], _ => some []
  | q :: rest, answers =>
    let user_answer := (answers q.id).getD "No Answer"
    let correct := user_answer == q.correct_option
    let your_line :=
      if user_answer == "No Answer" then some "No Answer"
      else (getattr_option q ("option_" ++ lowerStr user_answer)).map
        (fun t => user_answer ++ ": " ++ t)
    match your_line, getattr_option q ("option_" ++ lowerStr q.correct_option),
        review_answers rest answers with
    | some yl, some ct, some rest' =>
        some (⟨yl, q.correct_option ++ ": " ++ ct, q.explanation,
          if correct then "Correct" else "Incorrect"⟩ :: rest')
    | _, _, _ => none

end QuizApp

namespace QuizApp

/-- C2: inserting a record whose `correct_option` is not one of A, B, C, D
reports failure (returns `false`) without raising, and leaves the stored
question set unchanged (the rollback restores the store). -/
theorem add_question_bad_correct_option (s : Store) (r : QRecord)
    (h : ∀ co, r.correct_option = some co → co ∉ letters) :
    add_question s r = (false, s) := by
  obtain ⟨qt, oa, ob, oc, od, co, ex⟩ := r
  cases co with
  | none => cases qt <;> cases oa <;> cases ob <;> cases oc <;> cases od <;> rfl
  | some c =>
      have hnot : c ∉ letters := h c rfl
      cases qt <;> cases oa <;> cases ob <;> cases oc <;> cases od <;>
        simp [add_question, hnot]

/-- Witness for C2: a concrete record with `correct_option = "E"` is rejected
and the store is unchanged. -/
theorem add_question_bad_correct_option_witness :
    add_question ⟨[], 1⟩
      ⟨some "q", some "a", some "b", some "c", some "d", some "E", some "e"⟩ =
      (false, ⟨[], 1⟩) :=
  add_question_bad_correct_option _ _ (by decide)

/-- Records kept plus records skipped by the field validation partition the
batch. -/
lemma length_filter_add_length_filter_not (p : QRecord → Bool) (l : List QRecord) :
    (l.filter p).length + (l.filter (fun r => !p r)).length = l.length := by
  induction l with
  | nil => rfl
  | cons a l ih =>
      by_cases h : p a <;> simp [List.filter_cons, h] <;> omega

/-- The number of insert attempts the bulk loop makes is the number of
records that pass the field validation, independent of the store and of
individual insert outcomes. -/
lemma bulk_insert_loop_attempts (s : Store) (records : List QRecord) :
    (bulk_insert_loop s records).2.2
      = (records.filter (fun r => has_required_fields r)).length := by
  induction records generalizing s with
  | nil => rfl
  | cons q rest ih =>
      by_cases hq : has_required_fields q
      · simp [bulk_insert_loop, hq, List.filter_cons, ih]
        omega
      · simp [bulk_insert_loop, hq, List.filter_cons, ih]

/-- The success count of the bulk loop never exceeds its attempt count. -/
lemma bulk_insert_loop_success_le (s : Store) (records : List QRecord) :
    (bulk_insert_loop s records).2.1 ≤ (bulk_insert_loop s records).2.2 := by
  induction records generalizing s with
  | nil => exact Nat.le_refl 0
  | cons q rest ih =>
      by_cases hq : has_required_fields q
      · have := ih (add_question s q).2
        simp only [bulk_insert_loop, hq, if_true]
        rcases hadd : add_question s q with ⟨ok, s'⟩
        rcases hloop : bulk_insert_loop s' rest with ⟨s'', succ, att⟩
        have h' := ih s'
        rw [hloop] at h'
        simp only at h'
        cases ok <;> simp <;> omega
      · simpa [bulk_insert_loop, hq] using ih s

/-- C5: over a batch of `M` parsed records of which `K` lack a required
field, the bulk loop makes exactly `M − K` insert attempts — skipped records
and failed inserts never abort the rest of the batch, whatever the store
contents — and the success count is at most `M − K`. -/
theorem bulk_partial_success (s : Store) (records : List QRecord) :
    (bulk_insert_loop s records).2.2
        = records.length - (records.filter (fun r => !has_required_fields r)).length
      ∧ (bulk_insert_loop s records).2.1
        ≤ records.length - (records.filter (fun r => !has_required_fields r)).length := by
  have h1 := bulk_insert_loop_attempts s records
  have h2 := bulk_insert_loop_success_le s records
  have h3 := length_filter_add_length_filter_not (fun r => has_required_fields r) records
  constructor <;> omega

/-- C6 counterexample: on a payload whose top level is a single JSON object
(not a list), `parse_json_questions` returns the empty list but shows no
user-visible message at all (`st.error` is only called on a decode error),
so the caller cannot distinguish it from zero questions. -/
theorem nonlist_payload_shows_no_message :
    (admin_bulk ⟨[], 1⟩ (some .nonList)).parse_error_msg = none
      ∧ (admin_bulk ⟨[], 1⟩ (some .nonList)).attempts = 0
      ∧ (admin_bulk ⟨[], 1⟩ (some .nonList)).store = ⟨[], 1⟩ := by
  refine ⟨rfl, rfl, rfl⟩

/-- C6 amended: a decode failure returns the empty list, inserts nothing and
shows "Invalid JSON format."; a non-list payload returns the empty list and
inserts nothing, but only logs — no user-facing message is produced and the
outcome is indistinguishable from an empty batch. -/
theorem parse_failure_behaviour (s : Store) :
    ((admin_bulk s none).parse_error_msg = some "Invalid JSON format."
        ∧ (admin_bulk s none).attempts = 0
        ∧ (admin_bulk s none).store = s)
      ∧ ((admin_bulk s (some .nonList)).parse_error_msg = none
        ∧ (admin_bulk s (some .nonList)).attempts = 0
        ∧ (admin_bulk s (some .nonList)).store = s) := by
  refine ⟨⟨rfl, rfl, rfl⟩, ⟨rfl, rfl, rfl⟩⟩

/-- C7 counterexample: uploading two records of which one is valid yields the
banner "Successfully added 1 questions." — the total number of submitted
records (2) appears nowhere in the report, so the UI does not report
"N of M added". -/
theorem bulk_report_counterexample :
    (admin_bulk ⟨[], 1⟩ (some (.arr
        [⟨some "q1", some "a", some "b", some "c", some "d", some "A", some "e"⟩,
         ⟨some "q2", some "a", some "b", some "c", some "d", some "A", none⟩]))).success_msg
      = some "Successfully added 1 questions."
    ∧ '2' ∉ "Successfully added 1 questions.".toList := by
  exact ⟨by decide, by decide⟩

/-- C7 amended: after a bulk upload whose parsed list is non-empty, the UI
reports only the success count, in the form
"Successfully added N questions."; the total M is not part of the report. -/
theorem bulk_report_success_count_only (s : Store) (records : List QRecord)
    (h : records ≠ []) :
    (admin_bulk s (some (.arr records))).success_msg
      = some ("Successfully added "
          ++ toString (admin_bulk s (some (.arr records))).success_count
          ++ " questions.") := by
  have hne : records.isEmpty = false := by simpa using h
  rcases hloop : bulk_insert_loop s records with ⟨s', succ, att⟩
  simp [admin_bulk, parse_json_questions, hne, hloop]

/-- Witness for the amended C7 at a concrete one-record upload. -/
theorem bulk_report_success_count_only_witness :
    ([(⟨some "q1", some "a", some "b", some "c", some "d", some "A", some "e"⟩ : QRecord)] ≠ [])
    ∧ (admin_bulk ⟨[], 1⟩ (some (.arr
        [⟨some "q1", some "a", some "b", some "c", some "d", some "A", some "e"⟩]))).success_msg
      = some ("Successfully added "
          ++ toString (admin_bulk ⟨[], 1⟩ (some (.arr
              [⟨some "q1", some "a", some "b", some "c", some "d", some "A", some "e"⟩]))).success_count
          ++ " questions.") :=
  ⟨by decide, bulk_report_success_count_only _ _ (by decide)⟩

/-- C10: a payload that parses to a valid but empty list leads to zero
insert attempts, an unchanged store and no success banner at all — exactly
as after a parse failure, no "added" message is shown. -/
theorem empty_list_payload_no_report (s : Store) :
    (admin_bulk s (some (.arr []))).attempts = 0
      ∧ (admin_bulk s (some (.arr []))).success_msg = none
      ∧ (admin_bulk s (some (.arr []))).store = s
      ∧ (admin_bulk s none).success_msg = none :=
  ⟨rfl, rfl, rfl, rfl⟩

/-- C8: if any of the six non-optional form fields is empty the submission
is rejected with "Please fill in all fields." and no insert is attempted
(store unchanged); if all six are non-empty, exactly one insert is delegated
to `add_question` and its success or failure is reported. -/
theorem single_entry_validation (s : Store)
    (qt oa ob oc od co expl : String) :
    ((qt = "" ∨ oa = "" ∨ ob = "" ∨ oc = "" ∨ od = "" ∨ co = "") →
        single_entry_submit s qt oa ob oc od co expl = (s, "Please fill in all fields.", 0))
    ∧ (qt ≠ "" → oa ≠ "" → ob ≠ "" → oc ≠ "" → od ≠ "" → co ≠ "" →
        single_entry_submit s qt oa ob oc od co expl =
          ((add_question s ⟨some qt, some oa, some ob, some oc, some od, some co, some expl⟩).2,
            (if (add_question s ⟨some qt, some oa, some ob, some oc, some od, some co, some expl⟩).1
              then "Question added successfully!"
              else "Failed to add question. Check logs for details."), 1)) := by
  constructor
  · intro h
    unfold single_entry_submit
    rw [if_neg (by tauto)]
  · intro h1 h2 h3 h4 h5 h6
    unfold single_entry_submit
    rw [if_pos ⟨h1, h2, h3, h4, h5, h6⟩]

/-- Witness for C8: a form with `option_c` empty is rejected, the store is
unchanged and no insert is attempted. -/
theorem single_entry_validation_witness :
    single_entry_submit ⟨[], 1⟩ "q" "a" "b" "" "d" "A" "e"
      = (⟨[], 1⟩, "Please fill in all fields.", 0) :=
  (single_entry_validation ⟨[], 1⟩ "q" "a" "b" "" "d" "A" "e").1 (by simp)

/-- C3: on any render where the elapsed time has reached the limit, the
controller forces `current_question` to the question count and invokes
`submit_quiz`, whatever the index was before and whatever button the visitor
pressed on that render — the timer test precedes all navigation handling. -/
theorem timer_forces_completion (questions : List Question) (st : QuizState)
    (now : Nat) (selected : Option String) (act : Action)
    (hne : questions ≠ []) (hexp : st.time_limit * 60 ≤ now - st.start_time) :
    (take_quiz_render questions st now selected act).state.current_question = questions.length
      ∧ (take_quiz_render questions st now selected act).submitted = true := by
  have h0 : questions.isEmpty = false := by simpa using hne
  have h1 : time_up st now = true := by simpa [time_up] using hexp
  simp [take_quiz_render, h0, h1]

/-- Witness for C3: with a 15-minute limit started at time 0, a render at
900 seconds forces the index to the question count (1) and submits, even
though the visitor is on question 0 pressing Previous. -/
theorem timer_forces_completion_witness :
    (([⟨1, "q", "a", "b", "c", "d", "A", none⟩] : List Question) ≠ [])
    ∧ ((⟨0, fun _ => none, 0, 15⟩ : QuizState).time_limit * 60
        ≤ 900 - (⟨0, fun _ => none, 0, 15⟩ : QuizState).start_time)
    ∧ (take_quiz_render [⟨1, "q", "a", "b", "c", "d", "A", none⟩]
        ⟨0, fun _ => none, 0, 15⟩ 900 none .previous).state.current_question = 1
    ∧ (take_quiz_render [⟨1, "q", "a", "b", "c", "d", "A", none⟩]
        ⟨0, fun _ => none, 0, 15⟩ 900 none .previous).submitted = true :=
  ⟨by decide, by decide,
    (timer_forces_completion [⟨1, "q", "a", "b", "c", "d", "A", none⟩]
      ⟨0, fun _ => none, 0, 15⟩ 900 none .previous (by decide) (by decide)).1,
    (timer_forces_completion [⟨1, "q", "a", "b", "c", "d", "A", none⟩]
      ⟨0, fun _ => none, 0, 15⟩ 900 none .previous (by decide) (by decide)).2⟩

/-- C4: starting from an index in `[0, N]`, every render keeps the index in
`[0, N]`; with the timer not expired, Previous at index 0 and Next at index
`N − 1` leave the index unchanged; and a render can move the index to `N`
from elsewhere only when the timer has expired. -/
theorem navigation_bounds (questions : List Question) (st : QuizState)
    (now : Nat) (selected : Option String)
    (hne : questions ≠ []) (hle : st.current_question ≤ questions.length) :
    (∀ act, (take_quiz_render questions st now selected act).state.current_question
        ≤ questions.length)
    ∧ (time_up st now = false → st.current_question = 0 →
        (take_quiz_render questions st now selected .previous).state.current_question = 0)
    ∧ (time_up st now = false → st.current_question = questions.length - 1 →
        (take_quiz_render questions st now selected .next).state.current_question
          = questions.length - 1)
    ∧ (∀ act, st.current_question ≠ questions.length →
        (take_quiz_render questions st now selected act).state.current_question
            = questions.length →
        time_up st now = true) := by
  have h0 : questions.isEmpty = false := by simpa using hne
  have hN : 0 < questions.length := List.length_pos.mpr hne
  cases htime : time_up st now with
  | true =>
      refine ⟨fun act => ?_, fun hf => absurd hf (by decide),
        fun hf => absurd hf (by decide), fun act _ _ => rfl⟩
      simp [take_quiz_render, h0, htime]
  | false =>
      by_cases hlt : st.current_question < questions.length
      · refine ⟨fun act => ?_, fun _ h0' => ?_, fun _ hlast => ?_, fun act hne' hres => ?_⟩
        · cases selected <;> cases act <;>
            simp only [take_quiz_render, h0, htime, Bool.false_eq_true, if_false, dif_pos hlt] <;>
            (try split_ifs) <;> (try simp) <;> omega
        · cases selected <;>
            simp only [take_quiz_render, h0, htime, Bool.false_eq_true, if_false, dif_pos hlt] <;>
            rw [if_neg (by simp [h0'])] <;> simpa using h0'
        · cases selected <;>
            simp only [take_quiz_render, h0, htime, Bool.false_eq_true, if_false, dif_pos hlt] <;>
            rw [if_neg (by omega)] <;> simpa using hlast
        · exfalso
          revert hres
          cases selected <;> cases act <;>
            simp only [take_quiz_render, h0, htime, Bool.false_eq_true, if_false, dif_pos hlt] <;>
            (try split_ifs) <;> (try simp) <;> omega
      · have heq : st.current_question = questions.length := by omega
        refine ⟨fun act => ?_, fun _ h0' => ?_, fun _ hlast => ?_, fun act hne' _ => absurd heq hne'⟩
        · simp [take_quiz_render, h0, htime, hlt, hle]
        · exfalso; omega
        · exfalso; omega

/-- Witness for C4: with one question, timer not expired, index 0: Previous
keeps the index at 0. -/
theorem navigation_bounds_witness :
    (([⟨1, "q", "a", "b", "c", "d", "A", none⟩] : List Question) ≠ [])
    ∧ ((⟨0, fun _ => none, 0, 15⟩ : QuizState).current_question
        ≤ ([⟨1, "q", "a", "b", "c", "d", "A", none⟩] : List Question).length)
    ∧ (take_quiz_render [⟨1, "q", "a", "b", "c", "d", "A", none⟩]
        ⟨0, fun _ => none, 0, 15⟩ 10 none .previous).state.current_question = 0 :=
  ⟨by decide, by decide,
    (navigation_bounds [⟨1, "q", "a", "b", "c", "d", "A", none⟩]
      ⟨0, fun _ => none, 0, 15⟩ 10 none (by decide) (by decide)).2.1 (by decide) rfl⟩

/-- The check `recorded == correct_option` agrees with "the answers map has
an entry for this id equal to `correct_option`" whenever `correct_option` is
one of the four letters, because the sentinel `"No Answer"` is no letter. -/
lemma count_pred_eq (ans : Option String) (co : String) (hco : co ∈ letters) :
    decide (ans = some co) = (ans.getD "No Answer" == co) := by
  have hne : ("No Answer" == co) = false := by
    rcases (by simpa [letters] using hco : co = "A" ∨ co = "B" ∨ co = "C" ∨ co = "D")
      with h | h | h | h <;> subst h <;> decide
  cases ans with
  | none => simp [hne]
  | some s => by_cases h : s = co <;> simp [h]

/-- The `getattr` name built from a letter via `.lower()` always resolves to
one of the four option columns. -/
lemma getattr_option_lower_letter (q : Question) (s : String) (hs : s ∈ letters) :
    ∃ t, getattr_option q ("option_" ++ lowerStr s) = some t := by
  rcases (by simpa [letters] using hs : s = "A" ∨ s = "B" ∨ s = "C" ∨ s = "D")
    with h | h | h | h <;> subst h <;> exact ⟨_, rfl⟩

/-- The "Your Answer" branch never faults when the recorded answer is the
sentinel or a letter: the sentinel is diverted before any `getattr`, and a
letter resolves. -/
lemma ua_branch_some (q : Question) (ua : String) (f : String → String) (d : String)
    (hua : ua ∈ "No Answer" :: letters) :
    ∃ ya, (if ua == "No Answer" then some d
      else (getattr_option q ("option_" ++ lowerStr ua)).map f) = some ya := by
  rcases (by simpa [letters] using hua :
      ua = "No Answer" ∨ ua = "A" ∨ ua = "B" ∨ ua = "C" ∨ ua = "D")
    with h | h | h | h | h <;> subst h <;> exact ⟨_, rfl⟩

/-- Specification lemma: `submit_quiz` returns, and its score is the number of questions whose
answers-map entry equals their `correct_option`, provided every
`correct_option` is a letter and every recorded answer is a letter (or
absent / the sentinel). -/
lemma submit_quiz_spec (questions : List Question) (answers : Nat → Option String)
    (hco : ∀ q ∈ questions, q.correct_option ∈ letters)
    (hans : ∀ q ∈ questions, (answers q.id).getD "No Answer" ∈ "No Answer" :: letters) :
    ∃ results, submit_quiz questions answers =
      some (questions.countP (fun q => decide (answers q.id = some q.correct_option)),
        results) := by
  induction questions with
  | nil => exact ⟨[], rfl⟩
  | cons q rest ih =>
    obtain ⟨results, hrest⟩ :=
      ih (fun p hp => hco p (List.mem_cons_of_mem q hp))
        (fun p hp => hans p (List.mem_cons_of_mem q hp))
    obtain ⟨ct, hct⟩ :=
      getattr_option_lower_letter q q.correct_option (hco q (List.mem_cons_self q rest))
    obtain ⟨ya, hya⟩ := ua_branch_some q ((answers q.id).getD "No Answer")
      (fun t => (answers q.id).getD "No Answer" ++ ": " ++ t) "No Answer"
      (hans q (List.mem_cons_self q rest))
    refine ⟨⟨q.question_text, ya, q.correct_option ++ ": " ++ ct, q.explanation,
      if (answers q.id).getD "No Answer" == q.correct_option then "Correct"
        else "Incorrect"⟩ :: results, ?_⟩
    simp only [List.countP_cons,
      count_pred_eq (answers q.id) q.correct_option (hco q (List.mem_cons_self q rest))]
    simp only [submit_quiz, hya, hct, hrest]
    rw [Nat.add_comm]

/-- Specification lemma: `review_answers` returns under the same preconditions. -/
lemma review_answers_spec (questions : List Question) (answers : Nat → Option String)
    (hco : ∀ q ∈ questions, q.correct_option ∈ letters)
    (hans : ∀ q ∈ questions, (answers q.id).getD "No Answer" ∈ "No Answer" :: letters) :
    ∃ lines, review_answers questions answers = some lines := by
  induction questions with
  | nil => exact ⟨[], rfl⟩
  | cons q rest ih =>
    obtain ⟨lines, hrest⟩ :=
      ih (fun p hp => hco p (List.mem_cons_of_mem q hp))
        (fun p hp => hans p (List.mem_cons_of_mem q hp))
    obtain ⟨ct, hct⟩ :=
      getattr_option_lower_letter q q.correct_option (hco q (List.mem_cons_self q rest))
    obtain ⟨yl, hyl⟩ := ua_branch_some q ((answers q.id).getD "No Answer")
      (fun t => (answers q.id).getD "No Answer" ++ ": " ++ t) "No Answer"
      (hans q (List.mem_cons_self q rest))
    refine ⟨⟨yl, q.correct_option ++ ": " ++ ct, q.explanation,
      if (answers q.id).getD "No Answer" == q.correct_option then "Correct"
        else "Incorrect"⟩ :: lines, ?_⟩
    simp only [review_answers, hyl, hct, hrest]

/-- C1: for every question list and answers map (with `correct_option` a
letter, as the store constraint guarantees, and each recorded answer a
letter or absent, as the radio widget guarantees), the scoring pass returns
and its score equals the number of questions whose answers-map entry exists
and equals their `correct_option`; an absent entry defaults to the sentinel
"No Answer", which equals no letter, so an unanswered question is never
counted. -/
theorem scoring_correctness (questions : List Question) (answers : Nat → Option String)
    (hco : ∀ q ∈ questions, q.correct_option ∈ letters)
    (hans : ∀ q ∈ questions, (answers q.id).getD "No Answer" ∈ "No Answer" :: letters) :
    ∃ results, submit_quiz questions answers =
      some (questions.countP (fun q => decide (answers q.id = some q.correct_option)),
        results) :=
  submit_quiz_spec questions answers hco hans

/-- Witness for C1: two questions with correct options B and A, the visitor
answered B everywhere: score 1. -/
theorem scoring_correctness_witness :
    (∀ q ∈ ([⟨1, "q1", "a", "b", "c", "d", "B", some "e"⟩,
        ⟨2, "q2", "a", "b", "c", "d", "A", none⟩] : List Question),
      q.correct_option ∈ letters)
    ∧ (∀ q ∈ ([⟨1, "q1", "a", "b", "c", "d", "B", some "e"⟩,
        ⟨2, "q2", "a", "b", "c", "d", "A", none⟩] : List Question),
      (((fun _ => some "B") : Nat → Option String) q.id).getD "No Answer"
        ∈ "No Answer" :: letters)
    ∧ ∃ results, submit_quiz
        [⟨1, "q1", "a", "b", "c", "d", "B", some "e"⟩,
          ⟨2, "q2", "a", "b", "c", "d", "A", none⟩] (fun _ => some "B")
      = some (([⟨1, "q1", "a", "b", "c", "d", "B", some "e"⟩,
          ⟨2, "q2", "a", "b", "c", "d", "A", none⟩] : List Question).countP
            (fun q => decide ((some "B" : Option String) = some q.correct_option)),
          results) :=
  ⟨by decide, by decide,
    scoring_correctness
      [⟨1, "q1", "a", "b", "c", "d", "B", some "e"⟩,
        ⟨2, "q2", "a", "b", "c", "d", "A", none⟩]
      (fun _ => some "B") (by decide) (by decide)⟩

/-- C9: under the store constraint (correct options are letters) and the
radio-widget invariant (recorded answers are letters), the dynamic
dynamic attribute lookups (option_ concatenated with the lowercased letter) always resolve —
the sentinel is diverted before any lookup — so both the scoring pass and
the review pass are total. -/
theorem dynamic_option_lookup_total (questions : List Question)
    (answers : Nat → Option String)
    (hco : ∀ q ∈ questions, q.correct_option ∈ letters)
    (hans : ∀ q ∈ questions, (answers q.id).getD "No Answer" ∈ "No Answer" :: letters) :
    (submit_quiz questions answers).isSome
      ∧ (review_answers questions answers).isSome := by
  constructor
  · obtain ⟨results, h⟩ := submit_quiz_spec questions answers hco hans
    simp [h]
  · obtain ⟨lines, h⟩ := review_answers_spec questions answers hco hans
    simp [h]

/-- Witness for C9 at a concrete question set and answers map. -/
theorem dynamic_option_lookup_total_witness :
    (∀ q ∈ ([⟨1, "q1", "a", "b", "c", "d", "C", none⟩] : List Question),
      q.correct_option ∈ letters)
    ∧ (∀ q ∈ ([⟨1, "q1", "a", "b", "c", "d", "C", none⟩] : List Question),
      (((fun n => if n = 1 then some "D" else none) : Nat → Option String) q.id).getD
        "No Answer" ∈ "No Answer" :: letters)
    ∧ (submit_quiz [⟨1, "q1", "a", "b", "c", "d", "C", none⟩]
        (fun n => if n = 1 then some "D" else none)).isSome
    ∧ (review_answers [⟨1, "q1", "a", "b", "c", "d", "C", none⟩]
        (fun n => if n = 1 then some "D" else none)).isSome :=
  ⟨by decide, by decide,
    (dynamic_option_lookup_total [⟨1, "q1", "a", "b", "c", "d", "C", none⟩]
      (fun n => if n = 1 then some "D" else none) (by decide) (by decide)).1,
    (dynamic_option_lookup_total [⟨1, "q1", "a", "b", "c", "d", "C", none⟩]
      (fun n => if n = 1 then some "D" else none) (by decide) (by decide)).2⟩

end QuizApp
